import Mathlib

/-!
Verification of the session-multiplexer backend (src/server.js) against its
natural-language specification. The JavaScript state and operations are
shallowly embedded: the global `containers` map, the per-container client set,
file cache and process map become association lists; WebSocket message
handling, the HTTP file endpoints, the execute endpoint, process-output and
process-exit callbacks, and the idle-sweep timer body become pure functions
from state to state plus emitted events.
-/

namespace Spec2Proof

/-! ## Association lists (embedding of JS `Map`) -/

/-- Embedding of `Map.get`: first binding for the key, as JS maps have unique keys. -/
def lookupA {α : Type} : List (String × α) → String → Option α
  | [], _ => none
  | (k, v) :: rest, key => if key = k then some v else lookupA rest key

/-- Embedding of `Map.set`: replace the existing binding or append a fresh one. -/
def insertA {α : Type} : List (String × α) → String → α → List (String × α)
  | [], k, v => [(k, v)]
  | (k', v') :: rest, k, v =>
    if k = k' then (k, v) :: rest else (k', v') :: insertA rest k v

/-- Embedding of `Map.delete`: drop every binding for the key (JS maps hold at most one). -/
def eraseA {α : Type} : List (String × α) → String → List (String × α)
  | [], _ => []
  | (k', v') :: rest, k =>
    if k' = k then eraseA rest k else (k', v') :: eraseA rest k

/-! ## Path model (Node `path.join` on absolute bases)

`path.join(a, b)` concatenates with `/` and normalizes: empty and `.` segments
vanish and `..` pops the previous segment (dropped at the root, since every
base used by the server is the absolute `/data`). -/

/-- Split a path string into `/`-separated raw segments. -/
def splitSegs : List Char → List Char → List (List Char)
  | [], cur => [cur.reverse]
  | c :: rest, cur =>
    if c = '/' then cur.reverse :: splitSegs rest []
    else splitSegs rest (c :: cur)

/-- Normalize segments: skip empty and `.`, let `..` pop the stack (kept
reversed in `acc`); `..` at the root of an absolute path is dropped. -/
def normSegs : List (List Char) → List (List Char) → List (List Char)
  | acc, [] => acc.reverse
  | acc, s :: rest =>
    if s = [] ∨ s = ['.'] then normSegs acc rest
    else if s = ['.', '.'] then normSegs (acc.drop 1) rest
    else normSegs (s :: acc) rest

/-- Node `path.join a b` for an absolute `a` (the only use in the server). -/
def pathJoin (a b : String) : String :=
  let segs := normSegs [] (splitSegs (a.toList ++ '/' :: b.toList) [])
  String.mk ('/' :: (List.intercalate ['/'] segs))

/-- Whether a directory lies inside the persistent root `/data`. -/
def insideDataRoot (d : String) : Bool :=
  d == "/data" || List.isPrefixOf "/data/".toList d.toList

/-! ## Data model (src/server.js lines 58-74)

A "container" is the per-workspace Session record returned by
`createContainer`; the global `containers` map plus the server-wide
`process.env` and the filesystem form the server state. -/

/-- One WebSocket client: an identifier plus its `readyState === OPEN` flag. -/
structure Client where
  cid : Nat
  isOpen : Bool
deriving DecidableEq, Repr

/-- Whether the child was created by `spawn` (interactive shell branch) or by
`exec` (one-shot branch) in the execute endpoint. -/
inductive PMode
  | interactive
  | oneshot
deriving DecidableEq, Repr

/-- A live child process as the server tracks it: the branch it was created
by, the environment object passed at creation, the working directory, and the
text written to its stdin so far (`process.stdin.write`). Only the spawn
branch attaches a `resize` method (src/server.js line 535). -/
structure Proc where
  mode : PMode
  env : List (String × String)
  cwd : String
  stdinBuf : String
deriving DecidableEq, Repr

/-- The `resize` method exists only on spawn-created (interactive) handles. -/
def Proc.hasResize (p : Proc) : Bool := p.mode == PMode.interactive

/-- The record built by `createContainer` (src/server.js lines 62-74). -/
structure Container where
  id : String
  dir : String
  clients : List Client
  files : List (String × String)
  processes : List (String × Proc)
deriving DecidableEq, Repr

/-- Whole-server state: the `containers` registry, the server-global
`process.env`, and the persistent filesystem as a map from absolute file path
to content. -/
structure ServerState where
  containers : List (String × Container)
  globalEnv : List (String × String)
  storage : List (String × String)
deriving DecidableEq, Repr

/-- Embedding of `createContainer(previewId)` (src/server.js lines 62-74): joins the raw,
unvalidated caller-supplied id onto the persistent root `/data` and returns a
fresh record. It is defined for every id — no check rejects any id. -/
def createContainer (previewId : String) : Container :=
  { id := previewId
    dir := pathJoin "/data" previewId
    clients := []
    files := []
    processes := [] }

/-- The `containers.get(...) ?? create-and-set` pattern used by every
endpoint (e.g. src/server.js lines 89-94, 279-283, 476-480). -/
def getOrCreate (st : ServerState) (previewId : String) :
    ServerState × Container :=
  match lookupA st.containers previewId with
  | some c => (st, c)
  | none =>
    let c := createContainer previewId
    ({ st with containers := insertA st.containers previewId c }, c)

/-! ## Events -/

/-- An outbound JSON message; `none` in an optional field means the field is
absent from the serialized object. -/
structure Msg where
  type : String
  previewId : Option String := none
  processId : Option String := none
  output : Option String := none
  stream : Option String := none
  exitCode : Option Int := none
  stdoutAcc : Option String := none
  stderrAcc : Option String := none
  url : Option String := none
  pathField : Option String := none
  clientCount : Option Nat := none
  errorText : Option String := none
  timestamp : Option Nat := none
deriving DecidableEq, Repr

/-- Embedding of `broadcastToContainer(previewId, data)` (src/server.js lines 248-268) at
the emission level: it emits the event for the workspace only when the
registry still holds the container, else logs and returns. -/
def broadcastCall (st : ServerState) (previewId : String) (m : Msg) :
    List (String × Msg) :=
  match lookupA st.containers previewId with
  | some _ => [(previewId, m)]
  | none => []

/-- Fan-out of one broadcast: the serialized message goes to every client of
the container whose transport is open (src/server.js lines 260-265). -/
def deliver (st : ServerState) (previewId : String) (m : Msg) :
    List (Nat × Msg) :=
  match lookupA st.containers previewId with
  | some cont => (cont.clients.filter (·.isOpen)).map (fun cl => (cl.cid, m))
  | none => []

/-! ## Connection handler (src/server.js lines 77-245) -/

/-- An inbound WebSocket message after `JSON.parse`; absent fields are `none`.
JS truthiness makes the empty string and `0` count as missing. -/
structure InMsg where
  type : Option String := none
  processId : Option String := none
  input : Option String := none
  cols : Option Nat := none
  rows : Option Nat := none
deriving DecidableEq, Repr

/-- JS truthiness of an optional string (`undefined` and `""` are falsy). -/
def jsTruthyS : Option String → Bool
  | none => false
  | some s => s ≠ ""

/-- JS truthiness of an optional number (`undefined` and `0` are falsy). -/
def jsTruthyN : Option Nat → Bool
  | none => false
  | some n => n ≠ 0

/-- Outcome of handling one inbound frame: the new state, replies sent only to
the originating connection (`ws.send`), broadcasts emitted for a workspace,
and whether the connection is still open afterwards. -/
structure WsResult where
  state : ServerState
  toOrigin : List Msg
  emitted : List (String × Msg)
  connOpen : Bool
deriving DecidableEq, Repr

/-- The `error` reply for a message without a `type` (src/server.js 112-120). -/
def errMissingType (now : Nat) : Msg :=
  { type := "error", errorText := some "Missing type field in message",
    timestamp := some now }

/-- The `error` reply when the registry lost the container (lines 123-133). -/
def errNoContainer (previewId : String) (now : Nat) : Msg :=
  { type := "error", errorText := some "Container not found",
    previewId := some previewId, timestamp := some now }

/-- The message handler `ws.on('message')` (src/server.js lines 106-200). `raw = none` models a
frame on which `JSON.parse` throws: the whole handler body is wrapped in
`try/catch` whose catch only logs, so nothing is sent and the connection
stays open. A parsed message missing its `type` gets an `error` reply to the
originator only; then the handler dispatches on the type tag. The
`terminal-resize` branch calls the handle's `resize`, which assigns the
server-global `process.env.COLUMNS`/`LINES` (src/server.js lines 535-545) —
not any per-container state. -/
def wsMessage (st : ServerState) (previewId : String) (raw : Option InMsg)
    (now : Nat) : WsResult :=
  match raw with
  | none => ⟨st, [], [], true⟩
  | some data =>
    if ¬ jsTruthyS data.type then
      ⟨st, [errMissingType now], [], true⟩
    else
      match lookupA st.containers previewId with
      | none => ⟨st, [errNoContainer previewId now], [], true⟩
      | some cont =>
        let t := data.type.getD ""
        if t = "file-change" then
          ⟨st, [],
            broadcastCall st previewId
              { type := "refresh-preview", previewId := some previewId },
            true⟩
        else if t = "preview-ready" then
          ⟨st, [],
            broadcastCall st previewId
              { type := "preview-ready", previewId := some previewId,
                url := some ("/preview/" ++ previewId),
                timestamp := some now },
            true⟩
        else if t = "terminal-input" then
          if ¬ (jsTruthyS data.processId ∧ jsTruthyS data.input) then
            ⟨st, [], [], true⟩
          else
            let pid := data.processId.getD ""
            match lookupA cont.processes pid with
            | none => ⟨st, [], [], true⟩
            | some p =>
              let p' := { p with stdinBuf := p.stdinBuf ++ data.input.getD "" }
              let cont' := { cont with processes := insertA cont.processes pid p' }
              ⟨{ st with containers := insertA st.containers previewId cont' },
                [], [], true⟩
        else if t = "terminal-resize" then
          if ¬ (jsTruthyS data.processId ∧ jsTruthyN data.cols ∧ jsTruthyN data.rows) then
            ⟨st, [], [], true⟩
          else
            let pid := data.processId.getD ""
            match lookupA cont.processes pid with
            | none => ⟨st, [], [], true⟩
            | some p =>
              if p.hasResize then
                let env1 := insertA st.globalEnv "COLUMNS" (toString (data.cols.getD 0))
                let env2 := insertA env1 "LINES" (toString (data.rows.getD 0))
                ⟨{ st with globalEnv := env2 }, [], [], true⟩
              else ⟨st, [], [], true⟩
        else ⟨st, [], [], true⟩

/-- The connection handler `wss.on('connection')` (src/server.js lines 77-104): a falsy `previewId`
closes the socket with no acknowledgement; otherwise the container is fetched
or created, the client is added to its set, and the acknowledgement
`{type, previewId, timestamp}` — with no client count — is sent. -/
def wsConnect (st : ServerState) (previewId : String) (c : Client) (now : Nat) :
    ServerState × Option Msg :=
  if previewId = "" then (st, none)
  else
    let pr := getOrCreate st previewId
    let cont := pr.2
    let cont' :=
      { cont with clients := if c ∈ cont.clients then cont.clients else cont.clients ++ [c] }
    ({ pr.1 with containers := insertA pr.1.containers previewId cont' },
      some { type := "connection-established", previewId := some previewId,
             timestamp := some now })

/-- The earlier revision of the connection handler
(src/unnamed/part_000 lines 110-146): identical attach logic, but the
acknowledgement additionally carries `clientCount`, the size of the client
set after this connection was added. -/
def wsConnectR2 (st : ServerState) (previewId : String) (c : Client) (now : Nat) :
    ServerState × Option Msg :=
  if previewId = "" then (st, none)
  else
    let pr := getOrCreate st previewId
    let cont := pr.2
    let cont' :=
      { cont with clients := if c ∈ cont.clients then cont.clients else cont.clients ++ [c] }
    ({ pr.1 with containers := insertA pr.1.containers previewId cont' },
      some { type := "connection-established", previewId := some previewId,
             timestamp := some now,
             clientCount := some cont'.clients.length })

/-- The close handler `ws.on('close')` (src/server.js lines 202-225): remove the client from the
container's set; report whether the set became empty (which arms the 5-minute
idle-sweep timer). -/
def wsClose (st : ServerState) (previewId : String) (c : Client) :
    ServerState × Bool :=
  match lookupA st.containers previewId with
  | none => (st, false)
  | some cont =>
    let cont' := { cont with clients := cont.clients.filter (· ≠ c) }
    ({ st with containers := insertA st.containers previewId cont' },
      cont'.clients.isEmpty)

/-- The idle-sweep timer body (src/server.js lines 214-220): when it fires it
re-checks only `containers.get(previewId)?.clients.size === 0` and, if so,
deletes the registry entry. It never consults `processes` and never touches
`storage`. -/
def idleSweep (st : ServerState) (previewId : String) : ServerState :=
  match lookupA st.containers previewId with
  | some cont =>
    if cont.clients.isEmpty then
      { st with containers := eraseA st.containers previewId }
    else st
  | none => st

/-! ## File REST endpoints (src/server.js lines 271-460)

The filesystem is modelled as a map from absolute path to file content;
`fs.existsSync` is membership in that map (directory entries are not
modelled — none of the settled claims depend on them). -/

/-- Result of one HTTP file operation: the response status and body content,
the successor state, the broadcasts it emitted, and whether the handler
touched persistent storage. -/
structure HttpResult where
  status : Nat
  content : Option String := none
  state : ServerState
  emitted : List (String × Msg) := []
  touchedStorage : Bool := false
deriving DecidableEq, Repr

/-- Endpoint `POST /api/files/write/:previewId` (src/server.js lines 271-308): 400 on a
falsy path; otherwise get-or-create the container, write the content to
storage under `path.join(container.dir, filePath)`, set the in-memory cache
entry, and broadcast a `file-change` event. -/
def filesWrite (st : ServerState) (previewId filePath content : String) :
    HttpResult :=
  if filePath = "" then { status := 400, state := st }
  else
    let pr := getOrCreate st previewId
    let cont := pr.2
    let full := pathJoin cont.dir filePath
    let cont' := { cont with files := insertA cont.files filePath content }
    let st2 := { pr.1 with
                  storage := insertA pr.1.storage full content,
                  containers := insertA pr.1.containers previewId cont' }
    { status := 200, state := st2, touchedStorage := true,
      emitted := broadcastCall st2 previewId
        { type := "file-change", previewId := some previewId,
          pathField := some filePath } }

/-- Endpoint `GET /api/files/read/:previewId` (src/server.js lines 428-460): 400 on a
falsy path, 404 on an unknown container; a cache hit returns the cached
content without touching storage; otherwise the file is read from storage,
the cache is populated, or 404 if absent there too. -/
def filesRead (st : ServerState) (previewId filePath : String) : HttpResult :=
  if filePath = "" then { status := 400, state := st }
  else
    match lookupA st.containers previewId with
    | none => { status := 404, state := st }
    | some cont =>
      match lookupA cont.files filePath with
      | some c => { status := 200, content := some c, state := st }
      | none =>
        let full := pathJoin cont.dir filePath
        match lookupA st.storage full with
        | some c =>
          let cont' := { cont with files := insertA cont.files filePath c }
          { status := 200, content := some c, touchedStorage := true,
            state := { st with containers := insertA st.containers previewId cont' } }
        | none => { status := 404, state := st, touchedStorage := true }

/-- Endpoint `POST /api/files/rm/:previewId` (src/server.js lines 383-426): 400 on a
falsy path, 404 on an unknown container; when `fs.existsSync` fails the
handler returns 404 *before* reaching the cache-eviction line, so the cache
entry survives; otherwise the file is removed from storage, the cache entry
evicted, and `file-change` broadcast. -/
def filesRm (st : ServerState) (previewId filePath : String) (_recursive : Bool) :
    HttpResult :=
  if filePath = "" then { status := 400, state := st }
  else
    match lookupA st.containers previewId with
    | none => { status := 404, state := st }
    | some cont =>
      let full := pathJoin cont.dir filePath
      match lookupA st.storage full with
      | none => { status := 404, state := st, touchedStorage := true }
      | some _ =>
        let cont' := { cont with files := eraseA cont.files filePath }
        let st2 := { st with
                      storage := eraseA st.storage full,
                      containers := insertA st.containers previewId cont' }
        { status := 200, state := st2, touchedStorage := true,
          emitted := broadcastCall st2 previewId
            { type := "file-change", previewId := some previewId,
              pathField := some filePath } }

/-! ## Execute endpoint and process callbacks (src/server.js lines 463-665) -/

/-- Result of `POST /api/execute/:previewId`. -/
structure ExecResult where
  status : Nat
  processId : Option String := none
  state : ServerState
deriving DecidableEq, Repr

/-- Endpoint `POST /api/execute/:previewId` (src/server.js lines 463-665): 400 on a
falsy command; get-or-create the container; resolve the working directory;
remap `/bin/jsh` to `/bin/bash` dropping `--osc`; build the child environment
by spreading the server-global `process.env` and overriding `TERM`,
`COLORTERM`, `TERM_PROGRAM` and — when terminal geometry was supplied with
truthy cols and rows — `COLUMNS`/`LINES`; spawn (interactive, when the
normalized command is `/bin/bash`) or exec, and record the handle under a
fresh process id. -/
def execute (st : ServerState) (previewId command : String) (args : List String)
    (cwd : String) (terminal : Option (Nat × Nat)) (freshId : String) :
    ExecResult :=
  if command = "" then { status := 400, state := st }
  else
    let pr := getOrCreate st previewId
    let cont := pr.2
    let workingDir := pathJoin cont.dir cwd
    let commandToExecute := if command = "/bin/jsh" then "/bin/bash" else command
    let _argsToUse := if command = "/bin/jsh" then args.filter (· ≠ "--osc") else args
    let env0 :=
      insertA (insertA (insertA pr.1.globalEnv
        "TERM" "xterm-256color") "COLORTERM" "truecolor") "TERM_PROGRAM" "bolt"
    let env :=
      match terminal with
      | some g =>
        if g.1 ≠ 0 ∧ g.2 ≠ 0 then
          insertA (insertA env0 "COLUMNS" (toString g.1)) "LINES" (toString g.2)
        else env0
      | none => env0
    let isInteractiveShell := commandToExecute = "/bin/bash"
    let p : Proc :=
      { mode := if isInteractiveShell then PMode.interactive else PMode.oneshot
        env := env, cwd := workingDir, stdinBuf := "" }
    let cont' := { cont with processes := insertA cont.processes freshId p }
    { status := 200, processId := some freshId,
      state := { pr.1 with containers := insertA pr.1.containers previewId cont' } }

/-- The `process-output` event built by every stdout/stderr data listener. -/
def processOutputMsg (previewId pid chunk stream : String) : Msg :=
  { type := "process-output", previewId := some previewId,
    processId := some pid, output := some chunk, stream := some stream }

/-- Broadcasts fired by ONE chunk arriving on a process's stdout.
src/server.js registers one `stdout.on('data')` listener inside the
spawn branch (lines 563-573) — or, for the exec branch, at lines 607-616 —
and then a second identical listener in the trailing streaming block
(lines 640-649); Node invokes every registered listener per chunk, so each
chunk triggers two `broadcastToContainer` calls. -/
def stdoutChunk (st : ServerState) (previewId pid chunk : String) :
    List (String × Msg) :=
  broadcastCall st previewId (processOutputMsg previewId pid chunk "stdout") ++
    broadcastCall st previewId (processOutputMsg previewId pid chunk "stdout")

/-- Same duplication for stderr (lines 576-585 / 619-627 plus 651-660). -/
def stderrChunk (st : ServerState) (previewId pid chunk : String) :
    List (String × Msg) :=
  broadcastCall st previewId (processOutputMsg previewId pid chunk "stderr") ++
    broadcastCall st previewId (processOutputMsg previewId pid chunk "stderr")

/-- JS `code || 0` on a nullable exit code. -/
def jsOrInt (o : Option Int) (d : Int) : Int :=
  match o with
  | some c => if c = 0 then d else c
  | none => d

/-- Remove a process handle from its container's map. -/
def removeProc (st : ServerState) (previewId pid : String) : ServerState :=
  match lookupA st.containers previewId with
  | some cont =>
    let cont' := { cont with processes := eraseA cont.processes pid }
    { st with containers := insertA st.containers previewId cont' }
  | none => st

/-- The exit handler `childProcess.on('exit')` for the spawn branch (src/server.js lines
547-561): delete the handle, then broadcast `process-completed` with
`exitCode: code || 0` and empty stdout/stderr (already streamed). -/
def spawnExit (st : ServerState) (previewId pid : String) (code : Option Int) :
    ServerState × List (String × Msg) :=
  let st' := removeProc st previewId pid
  (st', broadcastCall st' previewId
    { type := "process-completed", previewId := some previewId,
      processId := some pid, exitCode := some (jsOrInt code 0),
      stdoutAcc := some "", stderrAcc := some "" })

/-- The error object Node's `exec` passes to its callback when the command
failed: `code` is the exit status, or absent when the child died on a
signal. -/
structure ExecError where
  code : Option Int
deriving DecidableEq, Repr

/-- The `exec` error for a command the shell could not find: the shell exits
with status 127, which `exec` surfaces as `error.code = 127`. -/
def notFoundError : ExecError := { code := some 127 }

/-- The `exec` completion callback (src/server.js lines 586-605): delete the
handle, then broadcast `process-completed` with
`exitCode: error ? error.code : 0` and the accumulated stdout/stderr. -/
def execComplete (st : ServerState) (previewId pid : String)
    (err : Option ExecError) (so se : String) :
    ServerState × List (String × Msg) :=
  let st' := removeProc st previewId pid
  (st', broadcastCall st' previewId
    { type := "process-completed", previewId := some previewId,
      processId := some pid,
      exitCode := match err with | none => some 0 | some e => e.code,
      stdoutAcc := some so, stderrAcc := some se })

/-! ## Concrete fixtures used by witnesses and counterexamples -/

/-- An open client. -/
def cl1 : Client := { cid := 1, isOpen := true }

/-- An interactive (spawn-created) process with an empty environment. -/
def procI : Proc :=
  { mode := PMode.interactive, env := [], cwd := "/data/w1", stdinBuf := "" }

/-- A workspace `w1` holding one open client and one interactive process. -/
def contW1 : Container :=
  { id := "w1", dir := pathJoin "/data" "w1", clients := [cl1],
    files := [], processes := [("p1", procI)] }

/-- Base state: `w1` registered, clean global environment, empty storage. -/
def stBase : ServerState :=
  { containers := [("w1", contW1)], globalEnv := [], storage := [] }

/-- A workspace with no clients left but one still-running process. -/
def contOrphan : Container :=
  { id := "w1", dir := pathJoin "/data" "w1", clients := [],
    files := [], processes := [("p1", procI)] }

/-- State in which the idle sweep fires for `w1` while `p1` still runs. -/
def stOrphan : ServerState :=
  { containers := [("w1", contOrphan)], globalEnv := [], storage := [] }

/-- A `terminal-resize` frame targeting `p1` with geometry 200×50. -/
def resizeInMsg : InMsg :=
  { type := some "terminal-resize", processId := some "p1",
    cols := some 200, rows := some 50 }

/-- The environment a just-spawned process was given: look up the process in
the result's registry and read one variable from its creation environment. -/
def spawnedEnvLookup (r : ExecResult) (previewId pid key : String) :
    Option String :=
  match lookupA r.state.containers previewId with
  | some cont =>
    match lookupA cont.processes pid with
    | some p => lookupA p.env key
    | none => none
  | none => none

/-- A workspace whose cache holds `f.txt` although storage does not. -/
def contStale : Container :=
  { id := "w1", dir := pathJoin "/data" "w1", clients := [cl1],
    files := [("f.txt", "stale")], processes := [] }

/-- State exercising the rm-of-a-missing-file path with a warm cache. -/
def stStale : ServerState :=
  { containers := [("w1", contStale)], globalEnv := [], storage := [] }

/-- A second, empty workspace `w2` registered alongside `w1`. -/
def contW2 : Container :=
  { id := "w2", dir := pathJoin "/data" "w2", clients := [],
    files := [], processes := [] }

/-- State with the two distinct workspaces `w1` and `w2` registered. -/
def stTwo : ServerState :=
  { containers := [("w1", contW1), ("w2", contW2)], globalEnv := [],
    storage := [] }

/-! ## Basic facts about the embedding -/

theorem lookupA_insertA_self {α : Type} (l : List (String × α)) (k : String) (v : α) :
    lookupA (insertA l k v) k = some v := by
  induction l with
  | nil => simp [insertA, lookupA]
  | cons hd tl ih =>
    by_cases h : k = hd.1
    · simp [insertA, lookupA, h]
    · simp [insertA, lookupA, h, ih]

theorem lookupA_insertA_ne {α : Type} (l : List (String × α)) (k j : String) (v : α)
    (h : k ≠ j) : lookupA (insertA l j v) k = lookupA l k := by
  induction l with
  | nil => simp [insertA, lookupA, h]
  | cons hd tl ih =>
    by_cases hj : j = hd.1
    · simp [insertA, lookupA, hj, h]
      subst hj
      simp [if_neg h]
    · simp [insertA, lookupA, hj]
      by_cases hk : k = hd.1
      · simp [hk]
      · simp [hk, ih]

theorem lookupA_eraseA_self {α : Type} (l : List (String × α)) (k : String) :
    lookupA (eraseA l k) k = none := by
  induction l with
  | nil => simp [eraseA, lookupA]
  | cons hd tl ih =>
    by_cases h : hd.1 = k
    · simp [eraseA, h, ih]
    · simp [eraseA, h, lookupA, Ne.symm h, ih]

theorem lookupA_eraseA_ne {α : Type} (l : List (String × α)) (k j : String)
    (h : k ≠ j) : lookupA (eraseA l j) k = lookupA l k := by
  induction l with
  | nil => simp [eraseA, lookupA]
  | cons hd tl ih =>
    by_cases hj : hd.1 = j
    · simp [eraseA, hj, lookupA, ih, h]
    · by_cases hk : k = hd.1
      · simp [eraseA, hj, lookupA, hk]
      · simp [eraseA, hj, lookupA, hk, ih]

example : pathJoin "/data" "w1" = "/data/w1" := by decide
example : pathJoin "/data" "../escape" = "/escape" := by decide
example : pathJoin "/data" "" = "/data" := by decide
example : pathJoin "/data" ".." = "/" := by decide
example : pathJoin "/data" "a/../b" = "/data/b" := by decide
example : insideDataRoot "/data/w1" = true := by decide
example : insideDataRoot "/escape" = false := by decide

/-! ## Claims -/

/-- C1. The spec requires every caller-supplied workspace identifier to be
validated against path-traversal sequences before being joined onto `/data`
(§7: a security-relevant invariant). `createContainer` performs no validation
at all: it is defined on every identifier, and the traversal identifier
`"../escape"` produces the workspace directory `/escape`, which lies outside
the persistent root. The code contradicts the spec's stated invariant. -/
theorem c1_traversal_id_escapes_root :
    (createContainer "../escape").dir = "/escape" ∧
      insideDataRoot (createContainer "../escape").dir = false ∧
      (getOrCreate stBase "../escape").2.dir = "/escape" := by
  refine ⟨by decide, by decide, by decide⟩

/-- C3. The spec says each stdout/stderr chunk is forwarded as exactly one
`process-output` broadcast tagged with the process id and stream. The code
registers two identical data listeners per stream (one in the spawn/exec
branch, one in the trailing streaming block), so a single chunk arriving on
stdout of `p1` in workspace `w1` triggers two broadcasts — both correctly
tagged, but two rather than one. -/
theorem c3_chunk_broadcast_duplicated :
    (stdoutChunk stBase "w1" "p1" "hello").length = 2 ∧
      (stdoutChunk stBase "w1" "p1" "hello").length ≠ 1 ∧
      ∀ e ∈ stdoutChunk stBase "w1" "p1" "hello",
        e = ("w1", processOutputMsg "w1" "p1" "hello" "stdout") := by
  refine ⟨by decide, by decide, by decide⟩

/-- C6. The spec states the invariant that a session with at least one
connection or at least one running process is never destroyed by the idle
sweep. The sweep body re-checks only the client count: in `stOrphan`,
workspace `w1` has zero clients but process `p1` still registered, and the
sweep deletes the registry entry anyway. -/
theorem c6_sweep_destroys_session_with_running_process :
    (lookupA stOrphan.containers "w1").map (fun c => c.processes.length) = some 1 ∧
      lookupA (idleSweep stOrphan "w1").containers "w1" = none := by
  refine ⟨by decide, by decide⟩

/-- C2 counterexample: two distinct operations on `w1` mutate state belonging
to the distinct workspace `w2`. First, a `terminal-resize` on process `p1` of
`w1` changes the environment merged into a process spawned afterwards under
`w2`: after the resize the `w2` child sees `COLUMNS = "200"`, whereas without
the resize it sees no `COLUMNS` at all (the resize handler assigns the
server-global `process.env`, which the execute endpoint spreads into every
later child of every workspace). Second, because relative file paths are
joined onto the workspace directory unvalidated, a file write under `w1` with
path `../w2/f.txt` creates the file `/data/w2/f.txt` inside `w2`'s directory
— previously absent from storage — and a subsequent read of `f.txt` under
`w2` returns the content written by the `w1` operation. -/
theorem c2_w1_operations_leak_into_w2 :
    (spawnedEnvLookup
        (execute (wsMessage stBase "w1" (some resizeInMsg) 0).state
          "w2" "ls" [] "/" none "p2") "w2" "p2" "COLUMNS" = some "200" ∧
      spawnedEnvLookup (execute stBase "w2" "ls" [] "/" none "p2")
          "w2" "p2" "COLUMNS" = none) ∧
    (pathJoin contW1.dir "../w2/f.txt" = pathJoin contW2.dir "f.txt" ∧
      lookupA stTwo.storage (pathJoin contW2.dir "f.txt") = none ∧
      (filesWrite stTwo "w1" "../w2/f.txt" "x").status = 200 ∧
      lookupA (filesWrite stTwo "w1" "../w2/f.txt" "x").state.storage
        (pathJoin contW2.dir "f.txt") = some "x" ∧
      (filesRead (filesWrite stTwo "w1" "../w2/f.txt" "x").state
          "w2" "f.txt").content = some "x") := by
  refine ⟨⟨by decide, by decide⟩,
    by decide, by decide, by decide, by decide, by decide⟩

theorem getOrCreate_containers_ne (st : ServerState) (w1 w2 : String)
    (h : w2 ≠ w1) :
    lookupA (getOrCreate st w1).1.containers w2 = lookupA st.containers w2 := by
  unfold getOrCreate
  cases hl : lookupA st.containers w1 <;>
    simp [hl, lookupA_insertA_ne _ _ _ _ h]

theorem mem_broadcastCall_fst {st : ServerState} {w : String} {m : Msg}
    {e : String × Msg} (he : e ∈ broadcastCall st w m) : e.1 = w := by
  unfold broadcastCall at he
  cases hl : lookupA st.containers w <;> rw [hl] at he
  · exact absurd he (List.not_mem_nil e)
  · simp at he
    rw [he]

theorem wsMessage_containers_ne (st : ServerState) (w1 w2 : String)
    (raw : Option InMsg) (now : Nat) (h : w2 ≠ w1) :
    lookupA (wsMessage st w1 raw now).state.containers w2 =
      lookupA st.containers w2 := by
  unfold wsMessage
  cases raw with
  | none => rfl
  | some data =>
    dsimp only
    repeat' split <;> try rfl
    all_goals simp [lookupA_insertA_ne _ _ _ _ h]

theorem wsMessage_emitted_tag (st : ServerState) (w1 : String)
    (raw : Option InMsg) (now : Nat) :
    ∀ e ∈ (wsMessage st w1 raw now).emitted, e.1 = w1 := by
  unfold wsMessage
  cases raw with
  | none => intro e he; exact absurd he (List.not_mem_nil e)
  | some data =>
    dsimp only
    repeat' split
    all_goals intro e he
    all_goals first
      | exact mem_broadcastCall_fst he
      | exact absurd he (List.not_mem_nil e)

theorem filesWrite_containers_ne (st : ServerState) (w1 w2 p c : String)
    (h : w2 ≠ w1) :
    lookupA (filesWrite st w1 p c).state.containers w2 =
      lookupA st.containers w2 := by
  unfold filesWrite
  split
  · rfl
  · dsimp only
    rw [lookupA_insertA_ne _ _ _ _ h, getOrCreate_containers_ne st w1 w2 h]

theorem filesWrite_emitted_tag (st : ServerState) (w1 p c : String) :
    ∀ e ∈ (filesWrite st w1 p c).emitted, e.1 = w1 := by
  unfold filesWrite
  split
  · intro e he; exact absurd he (List.not_mem_nil e)
  · intro e he; exact mem_broadcastCall_fst he

theorem filesRead_containers_ne (st : ServerState) (w1 w2 p : String)
    (h : w2 ≠ w1) :
    lookupA (filesRead st w1 p).state.containers w2 =
      lookupA st.containers w2 := by
  unfold filesRead
  by_cases hp : p = ""
  · simp [hp]
  · simp only [if_neg hp]
    cases hc : lookupA st.containers w1 with
    | none => rfl
    | some cont =>
      dsimp only
      cases hf : lookupA cont.files p with
      | some c => rfl
      | none =>
        dsimp only
        cases hs : lookupA st.storage (pathJoin cont.dir p) with
        | some c =>
          dsimp only
          rw [lookupA_insertA_ne _ _ _ _ h]
        | none => rfl

theorem filesRm_containers_ne (st : ServerState) (w1 w2 p : String)
    (r : Bool) (h : w2 ≠ w1) :
    lookupA (filesRm st w1 p r).state.containers w2 =
      lookupA st.containers w2 := by
  unfold filesRm
  by_cases hp : p = ""
  · simp [hp]
  · simp only [if_neg hp]
    cases hc : lookupA st.containers w1 with
    | none => rfl
    | some cont =>
      dsimp only
      cases hs : lookupA st.storage (pathJoin cont.dir p) with
      | none => rfl
      | some c =>
        dsimp only
        rw [lookupA_insertA_ne _ _ _ _ h]

theorem filesRm_emitted_tag (st : ServerState) (w1 p : String) (r : Bool) :
    ∀ e ∈ (filesRm st w1 p r).emitted, e.1 = w1 := by
  unfold filesRm
  by_cases hp : p = ""
  · simp [hp]
  · simp only [if_neg hp]
    cases hc : lookupA st.containers w1 with
    | none => intro e he; exact absurd he (List.not_mem_nil e)
    | some cont =>
      dsimp only
      cases hs : lookupA st.storage (pathJoin cont.dir p) with
      | none => intro e he; exact absurd he (List.not_mem_nil e)
      | some c =>
        intro e he
        exact mem_broadcastCall_fst he

theorem execute_containers_ne (st : ServerState) (w1 w2 cmd : String)
    (args : List String) (cwd : String) (term : Option (Nat × Nat))
    (fid : String) (h : w2 ≠ w1) :
    lookupA (execute st w1 cmd args cwd term fid).state.containers w2 =
      lookupA st.containers w2 := by
  unfold execute
  split
  · rfl
  · dsimp only
    rw [lookupA_insertA_ne _ _ _ _ h, getOrCreate_containers_ne st w1 w2 h]

theorem wsMessage_resize_sets_global_env (st : ServerState) (w1 pid : String)
    (cols rows now : Nat) (cont : Container) (p : Proc)
    (hc : lookupA st.containers w1 = some cont)
    (hp : lookupA cont.processes pid = some p)
    (hm : p.mode = PMode.interactive)
    (hpid : pid ≠ "") (hcols : cols ≠ 0) (hrows : rows ≠ 0) :
    (wsMessage st w1
        (some { type := some "terminal-resize", processId := some pid,
                cols := some cols, rows := some rows }) now).state.globalEnv =
      insertA (insertA st.globalEnv "COLUMNS" (toString cols))
        "LINES" (toString rows) := by
  unfold wsMessage
  simp [jsTruthyS, jsTruthyN, hc, hp, hpid, hcols, hrows, Proc.hasResize, hm]

/-- C2, amended. For distinct workspace identifiers `w1 ≠ w2`, isolation
holds only for the in-memory session records and for event routing: spawning
(`execute`), connection messages (`terminal-input`, `terminal-resize`,
`file-change`, `preview-ready`, handled by `wsMessage`), and the file
write/read/remove endpoints acting on `w1` never change the registry entry of
`w2`, and every event they broadcast is tagged `w1`. Isolation of the rest of
the state belonging to `w2` fails in two ways. First, a `terminal-resize` on
an interactive process of `w1` mutates the server-global environment, setting
`COLUMNS`/`LINES`, which `execute` later merges into the environment of
processes spawned under any workspace, including `w2` (sixth conjunct).
Second, a file write under `w1` stores its content at
`path.join(container.dir, filePath)` with the relative path unvalidated
(seventh conjunct), so a traversal path such as `../w2/f.txt` places the file
inside `w2`'s directory on persistent storage; the counterexample
instantiates both leaks. -/
theorem c2_isolation_limited_to_registry_and_events (st : ServerState) (w1 w2 : String)
    (hne : w2 ≠ w1) :
    (∀ raw now,
        lookupA (wsMessage st w1 raw now).state.containers w2 =
            lookupA st.containers w2 ∧
          ∀ e ∈ (wsMessage st w1 raw now).emitted, e.1 = w1) ∧
      (∀ p c,
        lookupA (filesWrite st w1 p c).state.containers w2 =
            lookupA st.containers w2 ∧
          ∀ e ∈ (filesWrite st w1 p c).emitted, e.1 = w1) ∧
      (∀ p, lookupA (filesRead st w1 p).state.containers w2 =
          lookupA st.containers w2) ∧
      (∀ p r,
        lookupA (filesRm st w1 p r).state.containers w2 =
            lookupA st.containers w2 ∧
          ∀ e ∈ (filesRm st w1 p r).emitted, e.1 = w1) ∧
      (∀ cmd args cwd term fid,
        lookupA (execute st w1 cmd args cwd term fid).state.containers w2 =
          lookupA st.containers w2) ∧
      (∀ cont p pid cols rows now,
        lookupA st.containers w1 = some cont →
        lookupA cont.processes pid = some p →
        p.mode = PMode.interactive →
        pid ≠ "" → cols ≠ 0 → rows ≠ 0 →
        (wsMessage st w1
            (some { type := some "terminal-resize", processId := some pid,
                    cols := some cols, rows := some rows }) now).state.globalEnv =
          insertA (insertA st.globalEnv "COLUMNS" (toString cols))
            "LINES" (toString rows)) ∧
      (∀ p c cont1,
        lookupA st.containers w1 = some cont1 → p ≠ "" →
        (filesWrite st w1 p c).status = 200 ∧
          lookupA (filesWrite st w1 p c).state.storage
            (pathJoin cont1.dir p) = some c) := by
  refine ⟨fun raw now => ⟨wsMessage_containers_ne st w1 w2 raw now hne,
      wsMessage_emitted_tag st w1 raw now⟩,
    fun p c => ⟨filesWrite_containers_ne st w1 w2 p c hne,
      filesWrite_emitted_tag st w1 p c⟩,
    fun p => filesRead_containers_ne st w1 w2 p hne,
    fun p r => ⟨filesRm_containers_ne st w1 w2 p r hne,
      filesRm_emitted_tag st w1 p r⟩,
    fun cmd args cwd term fid =>
      execute_containers_ne st w1 w2 cmd args cwd term fid hne,
    fun cont p pid cols rows now hc hp hm hpid hcols hrows =>
      wsMessage_resize_sets_global_env st w1 pid cols rows now cont p
        hc hp hm hpid hcols hrows,
    fun p c cont1 hc1 hp => ?_⟩
  unfold filesWrite
  simp only [if_neg hp]
  unfold getOrCreate
  rw [hc1]
  exact ⟨trivial, lookupA_insertA_self _ _ _⟩

/-- Witness for C2: in the two-workspace state, a file write under `w1`
leaves the registry entry of `w2` untouched, the resize of `p1` in `w1`
rewrites the global environment exactly as the theorem states, and the write
under `w1` with the traversal path `../w2/f.txt` lands at the storage key
joined from `w1`'s directory — which is `w2`'s file `/data/w2/f.txt`. -/
theorem c2_isolation_limited_to_registry_and_events_witness :
    (("w2" : String) ≠ "w1") ∧
      lookupA (filesWrite stTwo "w1" "f.txt" "x").state.containers "w2" =
        lookupA stTwo.containers "w2" ∧
      (wsMessage stTwo "w1" (some resizeInMsg) 0).state.globalEnv =
        insertA (insertA stTwo.globalEnv "COLUMNS" "200") "LINES" "50" ∧
      lookupA (filesWrite stTwo "w1" "../w2/f.txt" "x").state.storage
        (pathJoin contW1.dir "../w2/f.txt") = some "x" ∧
      pathJoin contW1.dir "../w2/f.txt" = "/data/w2/f.txt" := by
  have h := c2_isolation_limited_to_registry_and_events stTwo "w1" "w2" (by decide)
  refine ⟨by decide, (h.2.1 "f.txt" "x").1, ?_,
    (h.2.2.2.2.2.2 "../w2/f.txt" "x" contW1 (by decide) (by decide)).2,
    by decide⟩
  have hr := h.2.2.2.2.2.1 contW1 procI "p1" 200 50 0 (by decide) (by decide)
    rfl (by decide) (by decide) (by decide)
  simpa using hr

/-- C4. For a process registered under an existing workspace, both completion
paths remove the handle from the container's `processes` map and broadcast a
single `process-completed` event carrying the process id and an exit code:
the spawn-branch exit handler reports `code || 0`, the exec callback reports
`error ? error.code : 0`; and for an execution that never started
successfully (command not found, surfaced by the shell as exit status 127)
the event carries the nonzero sentinel 127 rather than being dropped or
reporting success. -/
theorem c4_exit_removes_handle_and_reports_code (st : ServerState)
    (w pid : String) (cont : Container) (code : Option Int)
    (err : Option ExecError) (so se : String)
    (hc : lookupA st.containers w = some cont) :
    (∃ cont', lookupA (spawnExit st w pid code).1.containers w = some cont' ∧
        lookupA cont'.processes pid = none) ∧
      (∃ m, (spawnExit st w pid code).2 = [(w, m)] ∧
        m.type = "process-completed" ∧ m.processId = some pid ∧
        m.exitCode = some (jsOrInt code 0)) ∧
      (∃ cont', lookupA (execComplete st w pid err so se).1.containers w = some cont' ∧
        lookupA cont'.processes pid = none) ∧
      (∃ m, (execComplete st w pid err so se).2 = [(w, m)] ∧
        m.type = "process-completed" ∧ m.processId = some pid ∧
        m.exitCode = (match err with | none => some 0 | some e => e.code)) ∧
      (err = some notFoundError →
        ∃ m, (execComplete st w pid err so se).2 = [(w, m)] ∧
          m.exitCode = some 127 ∧ m.exitCode ≠ some 0) := by
  have hrm : lookupA (removeProc st w pid).containers w =
      some { cont with processes := eraseA cont.processes pid } := by
    unfold removeProc
    rw [hc]
    exact lookupA_insertA_self _ _ _
  refine ⟨⟨_, by unfold spawnExit; exact hrm, lookupA_eraseA_self _ _⟩, ?_, ?_, ?_, ?_⟩
  · refine ⟨{ type := "process-completed", previewId := some w,
              processId := some pid, exitCode := some (jsOrInt code 0),
              stdoutAcc := some "", stderrAcc := some "" }, ?_, rfl, rfl, rfl⟩
    unfold spawnExit broadcastCall
    dsimp only
    rw [hrm]
  · exact ⟨_, by unfold execComplete; exact hrm, lookupA_eraseA_self _ _⟩
  · refine ⟨{ type := "process-completed", previewId := some w,
              processId := some pid,
              exitCode := (match err with | none => some 0 | some e => e.code),
              stdoutAcc := some so, stderrAcc := some se }, ?_, rfl, rfl, rfl⟩
    unfold execComplete broadcastCall
    dsimp only
    rw [hrm]
  · intro herr
    subst herr
    refine ⟨{ type := "process-completed", previewId := some w,
              processId := some pid, exitCode := some 127,
              stdoutAcc := some so, stderrAcc := some se }, ?_, rfl, by simp⟩
    unfold execComplete broadcastCall
    dsimp only
    rw [hrm]
    rfl

/-- Witness for C4: the exec completion of `p1` in `stBase` after a
command-not-found failure removes the handle and reports exit code 127. -/
theorem c4_exit_removes_handle_and_reports_code_witness :
    lookupA stBase.containers "w1" = some contW1 ∧
      (∃ m, (execComplete stBase "w1" "p1" (some notFoundError) "" "").2 =
          [("w1", m)] ∧ m.exitCode = some 127 ∧ m.exitCode ≠ some 0) := by
  have h := c4_exit_removes_handle_and_reports_code stBase "w1" "p1" contW1
    none (some notFoundError) "" "" (by decide)
  exact ⟨by decide, h.2.2.2.2 rfl⟩

/-- C5 counterexample. An inbound frame on which `JSON.parse` throws is
handled by the `catch` block, which only logs: in the concrete base state no
structured `error` event is sent back to the originating connection (the
claim requires one), even though the connection does stay open. -/
theorem c5_parse_failure_sends_no_error_event :
    (wsMessage stBase "w1" none 0).toOrigin = [] ∧
      (wsMessage stBase "w1" none 0).connOpen = true := by
  refine ⟨rfl, rfl⟩

/-- C5, amended. A parsed message missing its `type` tag elicits a structured
`error` event sent only to the originating connection (nothing is broadcast)
and the connection stays open with the state unchanged; a message that fails
to parse is logged and dropped — no `error` event is sent — and the
connection likewise stays open with the state unchanged. In neither case is
the connection terminated. -/
theorem c5_malformed_message_handling (st : ServerState) (w : String)
    (now : Nat) :
    (wsMessage st w none now =
        { state := st, toOrigin := [], emitted := [], connOpen := true }) ∧
      (∀ d : InMsg, ¬ jsTruthyS d.type = true →
        wsMessage st w (some d) now =
          { state := st, toOrigin := [errMissingType now], emitted := [],
            connOpen := true }) := by
  refine ⟨rfl, fun d hd => ?_⟩
  unfold wsMessage
  simp [hd]

/-- Witness for C5: a frame whose parsed object has no `type` field gets
exactly the missing-type `error` reply in the base state, with nothing
broadcast and the connection open. -/
theorem c5_malformed_message_handling_witness :
    ¬ jsTruthyS (InMsg.mk none none none none none).type = true ∧
      wsMessage stBase "w1" (some (InMsg.mk none none none none none)) 0 =
        { state := stBase, toOrigin := [errMissingType 0], emitted := [],
          connOpen := true } := by
  refine ⟨by decide, (c5_malformed_message_handling stBase "w1" 0).2
    (InMsg.mk none none none none none) (by decide)⟩

/-- C7. When the idle-sweep timer fires for a workspace whose registered
container still has zero connections, the registry entry is deleted — a
subsequent non-creating lookup returns `none` — while persistent storage and
the global environment are left untouched: the sweep body only calls
`containers.delete`. -/
theorem c7_sweep_removes_registry_entry_only (st : ServerState) (w : String)
    (cont : Container) (hc : lookupA st.containers w = some cont)
    (hz : cont.clients = []) :
    lookupA (idleSweep st w).containers w = none ∧
      (idleSweep st w).storage = st.storage ∧
      (idleSweep st w).globalEnv = st.globalEnv := by
  unfold idleSweep
  rw [hc]
  simp [hz, lookupA_eraseA_self]

/-- Witness for C7: sweeping `w1` in the orphan state (zero clients) removes
the entry and leaves storage and environment as they were. -/
theorem c7_sweep_removes_registry_entry_only_witness :
    lookupA stOrphan.containers "w1" = some contOrphan ∧
      contOrphan.clients = [] ∧
      lookupA (idleSweep stOrphan "w1").containers "w1" = none ∧
      (idleSweep stOrphan "w1").storage = stOrphan.storage := by
  have h := c7_sweep_removes_registry_entry_only stOrphan "w1" contOrphan
    (by decide) rfl
  exact ⟨by decide, rfl, h.1, h.2.1⟩

/-- C8. Round-trip law: a successful write of `content` under `filePath`
followed by a read of the same path returns exactly that content from the
in-memory cache without touching storage and without changing state; and if
the cache entry is then evicted, the read refetches the same content from
persistent storage (populating the cache again). -/
theorem c8_write_read_roundtrip (st : ServerState) (w p c : String)
    (hp : p ≠ "") :
    (filesWrite st w p c).status = 200 ∧
      (filesRead (filesWrite st w p c).state w p).status = 200 ∧
      (filesRead (filesWrite st w p c).state w p).content = some c ∧
      (filesRead (filesWrite st w p c).state w p).touchedStorage = false ∧
      (filesRead (filesWrite st w p c).state w p).state =
        (filesWrite st w p c).state ∧
      (∀ cont1, lookupA (filesWrite st w p c).state.containers w = some cont1 →
        (filesRead
            { (filesWrite st w p c).state with
                containers :=
                  insertA (filesWrite st w p c).state.containers w
                    { cont1 with files := eraseA cont1.files p } } w p).status = 200 ∧
          (filesRead
            { (filesWrite st w p c).state with
                containers :=
                  insertA (filesWrite st w p c).state.containers w
                    { cont1 with files := eraseA cont1.files p } } w p).content = some c ∧
          (filesRead
            { (filesWrite st w p c).state with
                containers :=
                  insertA (filesWrite st w p c).state.containers w
                    { cont1 with files := eraseA cont1.files p } } w p).touchedStorage = true) := by
  unfold filesWrite
  simp only [if_neg hp]
  rcases hg : getOrCreate st w with ⟨st1, cont⟩
  dsimp only
  have hdir : (getOrCreate st w).2.dir = cont.dir := by rw [hg]
  have hlook : lookupA (insertA st1.containers w
      { cont with files := insertA cont.files p c }) w =
      some { cont with files := insertA cont.files p c } :=
    lookupA_insertA_self _ _ _
  constructor
  · trivial
  constructor
  · unfold filesRead
    simp [if_neg hp, hg, hlook, lookupA_insertA_self]
  constructor
  · unfold filesRead
    simp [if_neg hp, hg, hlook, lookupA_insertA_self]
  constructor
  · unfold filesRead
    simp [if_neg hp, hg, hlook, lookupA_insertA_self]
  constructor
  · unfold filesRead
    simp [if_neg hp, hg, hlook, lookupA_insertA_self]
  · intro cont1 hc1
    rw [hlook] at hc1
    injection hc1 with h2
    subst h2
    unfold filesRead
    simp [if_neg hp, lookupA_insertA_self, lookupA_eraseA_self]

/-- Witness for C8: writing `"x"` to `a/b.txt` in the base state and reading
it back returns `"x"` from the cache without touching storage. -/
theorem c8_write_read_roundtrip_witness :
    ("a/b.txt" : String) ≠ "" ∧
      (filesRead (filesWrite stBase "w1" "a/b.txt" "x").state "w1" "a/b.txt").content
        = some "x" ∧
      (filesRead (filesWrite stBase "w1" "a/b.txt" "x").state "w1" "a/b.txt").touchedStorage
        = false :=
  ⟨by decide,
    (c8_write_read_roundtrip stBase "w1" "a/b.txt" "x" (by decide)).2.2.1,
    (c8_write_read_roundtrip stBase "w1" "a/b.txt" "x" (by decide)).2.2.2.1⟩

/-- C10. If a path has a cache entry but no file on persistent storage, the
remove endpoint returns 404 from the `existsSync` guard before reaching the
cache-eviction line: the state (hence the cache entry) is unchanged and
nothing is broadcast, so a subsequent read of the same path serves the stale
cached content from memory instead of reporting NotFound. -/
theorem c10_rm_missing_file_keeps_stale_cache (st : ServerState)
    (w p c : String) (cont : Container) (rec : Bool) (hp : p ≠ "")
    (hc : lookupA st.containers w = some cont)
    (hf : lookupA cont.files p = some c)
    (hs : lookupA st.storage (pathJoin cont.dir p) = none) :
    (filesRm st w p rec).status = 404 ∧
      (filesRm st w p rec).state = st ∧
      (filesRm st w p rec).emitted = [] ∧
      (filesRead st w p).status = 200 ∧
      (filesRead st w p).content = some c ∧
      (filesRead st w p).touchedStorage = false := by
  unfold filesRm filesRead
  simp [if_neg hp, hc, hf, hs]

/-- Witness for C10: removing `f.txt` in the stale state 404s and the read
afterwards still returns the stale cached content. -/
theorem c10_rm_missing_file_keeps_stale_cache_witness :
    lookupA stStale.containers "w1" = some contStale ∧
      lookupA contStale.files "f.txt" = some "stale" ∧
      lookupA stStale.storage (pathJoin contStale.dir "f.txt") = none ∧
      (filesRm stStale "w1" "f.txt" false).status = 404 ∧
      (filesRead stStale "w1" "f.txt").content = some "stale" := by
  have h := c10_rm_missing_file_keeps_stale_cache stStale "w1" "f.txt" "stale"
    contStale false (by decide) (by decide) (by decide) (by decide)
  exact ⟨by decide, by decide, by decide, h.1, h.2.2.2.2.1⟩

/-- C9 counterexample. In src/server.js the connection acknowledgement is
`{type, previewId, timestamp}` only: for a concrete fresh attach the ack is
sent but its `clientCount` field is absent, while the claim requires the
current connection count to be included. -/
theorem c9_ack_lacks_client_count :
    ((wsConnect stBase "w2" cl1 42).2).isSome = true ∧
      ((wsConnect stBase "w2" cl1 42).2).map Msg.clientCount = some none := by
  refine ⟨by decide, by decide⟩

/-- C9, amended. On every successful connection establishment the current
revision (src/server.js) sends a `connection-established` acknowledgement
carrying the workspace id and a timestamp but NO connection count; the
earlier revision (src/unnamed/part_000) additionally includes `clientCount`,
equal to the size of the connection set after the new connection was added
(so including it). -/
theorem c9_ack_fields (st : ServerState) (w : String) (c : Client) (now : Nat)
    (hw : w ≠ "") :
    (∃ m, (wsConnect st w c now).2 = some m ∧
        m.type = "connection-established" ∧ m.previewId = some w ∧
        m.timestamp = some now ∧ m.clientCount = none) ∧
      (∃ m cont', (wsConnectR2 st w c now).2 = some m ∧
        lookupA (wsConnectR2 st w c now).1.containers w = some cont' ∧
        m.clientCount = some cont'.clients.length ∧ c ∈ cont'.clients) := by
  constructor
  · unfold wsConnect
    simp only [if_neg hw]
    exact ⟨_, rfl, rfl, rfl, rfl, rfl⟩
  · unfold wsConnectR2
    simp only [if_neg hw]
    rcases hg : getOrCreate st w with ⟨st1, cont⟩
    dsimp only
    refine ⟨_, _, rfl, lookupA_insertA_self _ _ _, rfl, ?_⟩
    by_cases hm : c ∈ cont.clients
    · simp [hm]
    · simp [hm]

/-- Witness for C9: attaching to the fresh workspace `w3` in the base state
yields an ack with previewId `w3`, the given timestamp, and no client
count. -/
theorem c9_ack_fields_witness :
    ("w3" : String) ≠ "" ∧
      (∃ m, (wsConnect stBase "w3" cl1 7).2 = some m ∧
        m.type = "connection-established" ∧ m.previewId = some "w3" ∧
        m.timestamp = some 7 ∧ m.clientCount = none) :=
  ⟨by decide, (c9_ack_fields stBase "w3" cl1 7 (by decide)).1⟩

end Spec2Proof
